import Mathlib

/-!
Verification of the healthcare chatbot ticketing system's analysis layer.

The definitions below are a shallow embedding of the repository's
JavaScript source: `backend/services/aiService.js` (message analysis,
entity extraction, conversation context store, response templates,
feedback store), `backend/services/gptService.js` (optional remote
enhancement with fallback), `backend/models/Ticket.js` (the status enum)
and the ticket message route (status update on a closed ticket).
External library collaborators (the `natural` tokenizer, stemmer,
Bayes classifier and AFINN sentiment analyzer, the language service and
the OpenAI client) are modelled as function parameters; machine floats
are modelled as rationals; a remote call that may throw is modelled as
an `Option` result.
-/

/-! ## Character classes and regex matchers (aiService.js lines 112-135)

JavaScript regex semantics for the five fixed entity patterns, over
`List Char`.  `\w` is `[A-Za-z0-9_]`, `\d` is `[0-9]`, `\b` holds where
exactly one side is a word character; `RegExp.test` asks whether a match
exists anywhere in the string. -/

/-- JavaScript `\w`: ASCII letters, digits and underscore. -/
def wordChar (c : Char) : Bool :=
  c.isAlpha || c.isDigit || c = '_'

/-- JavaScript `\b` at a position whose preceding character is a word
character: holds when the rest of the string is empty or starts with a
non-word character. -/
def wordToNonword : List Char → Bool
  | [] => true
  | c :: _ => !wordChar c

/-- The `[\/\-]` separator class of the date pattern. -/
def isDateSep (c : Char) : Bool :=
  c = '/' || c = '-'

/-- Consume exactly `n` ASCII digits, returning the rest of the string. -/
def digitsN : Nat → List Char → Option (List Char)
  | 0, cs => some cs
  | _ + 1, [] => none
  | n + 1, c :: cs => if c.isDigit then digitsN n cs else none

/-- The optional tail `([\/\-]\d{2,4})?\b` of the date pattern, entered
right after `\d{1,2}[\/\-]\d{1,2}` (so the previous character is a digit). -/
def dateTailOpt (cs : List Char) : Bool :=
  wordToNonword cs ||
    (match cs with
     | c :: rest =>
         isDateSep c &&
           ([2, 3, 4].any fun n3 =>
             match digitsN n3 rest with
             | some cs5 => wordToNonword cs5
             | none => false)
     | [] => false)

/-- Match `\d{1,2}[\/\-]\d{1,2}([\/\-]\d{2,4})?\b` at the start of `cs`. -/
def dateFrom (cs : List Char) : Bool :=
  [1, 2].any fun n1 =>
    match digitsN n1 cs with
    | some (c :: cs2) =>
        isDateSep c &&
          ([1, 2].any fun n2 =>
            match digitsN n2 cs2 with
            | some cs3 => dateTailOpt cs3
            | none => false)
    | _ => false

/-- Search for the date pattern at any position preceded by a word
boundary (`prevWord` says whether the previous character was a word
character; the pattern starts with `\d`, a word character, so the
boundary requires the previous one not to be). -/
def dateSearch : Bool → List Char → Bool
  | _, [] => false
  | prevWord, c :: rest =>
      (!prevWord && dateFrom (c :: rest)) || dateSearch (wordChar c) rest

/-- The token-level test of the dates entity regex
`/\b\d{1,2}[\/\-]\d{1,2}([\/\-]\d{2,4})?\b/`. -/
def matchesDate (token : String) : Bool :=
  dateSearch false token.data

/-- Drop an alternation branch from the front of the string, or fail. -/
def dropAlt : List Char → List Char → Option (List Char)
  | [], cs => some cs
  | _ :: _, [] => none
  | a :: as, c :: cs => if a = c then dropAlt as cs else none

/-- The tail `s?\b` of the medication and body-part patterns, entered
right after an alternation branch (whose last character is a letter). -/
def sOptBoundary (cs : List Char) : Bool :=
  wordToNonword cs ||
    (match cs with
     | c :: rest => c = 's' && wordToNonword rest
     | [] => false)

/-- The tail `\w*\b` of the symptom and condition patterns, entered right
after an alternation branch: consume word characters greedily and stop at
a boundary. -/
def wordStarBoundary : List Char → Bool
  | [] => true
  | c :: rest => if wordChar c then wordStarBoundary rest else true

/-- Search for `\b(alt1|...|altN)<tail>` at any position of the string:
the boundary before an alternation branch (which starts with a letter)
requires the previous character not to be a word character. -/
def kwSearch (alts : List (List Char)) (tailOk : List Char → Bool) :
    Bool → List Char → Bool
  | _, [] => false
  | prevWord, c :: rest =>
      (!prevWord && alts.any fun alt =>
          match dropAlt alt (c :: rest) with
          | some cs2 => tailOk cs2
          | none => false) ||
        kwSearch alts tailOk (wordChar c) rest

/-- Alternation branches of the medications regex. -/
def medicationAlts : List String :=
  ["pill", "medication", "medicine", "prescription", "drug", "dose",
   "tablet", "capsule", "antibiotic", "inhaler", "insulin", "injection"]

/-- Alternation branches of the symptoms regex. -/
def symptomAlts : List String :=
  ["pain", "ache", "fever", "cough", "headache", "nausea", "dizz",
   "swelling", "rash", "fatigue", "tired", "exhausted", "vomit",
   "diarrhea", "constipation", "bleed", "breath", "numb", "itch",
   "burn", "sore"]

/-- Alternation branches of the medical-conditions regex. -/
def medicalConditionAlts : List String :=
  ["diabet", "hypertension", "asthma", "arthritis", "depression",
   "anxiety", "allerg", "cancer", "heart", "stroke", "infection",
   "disease", "disorder", "syndrome"]

/-- Alternation branches of the body-parts regex. -/
def bodyPartAlts : List String :=
  ["head", "chest", "arm", "leg", "foot", "hand", "back", "neck",
   "shoulder", "knee", "ankle", "wrist", "stomach", "throat", "ear",
   "eye", "nose", "skin", "heart", "lung", "liver", "kidney"]

/-- The medications regex `/\b(pill|...|injection)s?\b/i`: the `i` flag is
modelled by folding the input to lower case (the branches are lower case). -/
def matchesMedication (token : String) : Bool :=
  kwSearch (medicationAlts.map String.data) sOptBoundary false
    (token.data.map Char.toLower)

/-- The symptoms regex `/\b(pain|...|sore)\w*\b/i`. -/
def matchesSymptom (token : String) : Bool :=
  kwSearch (symptomAlts.map String.data) wordStarBoundary false
    (token.data.map Char.toLower)

/-- The medical-conditions regex `/\b(diabet|...|syndrome)\w*\b/i`. -/
def matchesMedicalCondition (token : String) : Bool :=
  kwSearch (medicalConditionAlts.map String.data) wordStarBoundary false
    (token.data.map Char.toLower)

/-- The body-parts regex `/\b(head|...|kidney)s?\b/i`. -/
def matchesBodyPart (token : String) : Bool :=
  kwSearch (bodyPartAlts.map String.data) sOptBoundary false
    (token.data.map Char.toLower)

/-! ## Entity extraction and message analysis (aiService.js lines 81-149) -/

/-- The `entities` object built in `analyzeMessage`. -/
structure Entities where
  dates : List String
  medications : List String
  symptoms : List String
  medicalConditions : List String
  bodyParts : List String
deriving Repr, DecidableEq

/-- Lines 112-135 of aiService.js: each entity list is `tokens.filter`
applied to the corresponding regex test. -/
def extractEntities (tokens : List String) : Entities :=
  { dates := tokens.filter matchesDate
    medications := tokens.filter matchesMedication
    symptoms := tokens.filter matchesSymptom
    medicalConditions := tokens.filter matchesMedicalCondition
    bodyParts := tokens.filter matchesBodyPart }

/-- The `sentiment` object of an analysis. -/
structure Sentiment where
  score : ℚ
  label : String
  isUrgent : Bool
deriving Repr, DecidableEq

/-- The analysis object returned by `analyzeMessage`. -/
structure Analysis where
  intent : String
  entities : Entities
  tokens : List String
  stemmedTokens : List String
  sentiment : Sentiment
deriving Repr, DecidableEq

/-- Lines 102-103 of aiService.js: the fixed urgency keyword list. -/
def urgentTerms : List String :=
  ["emergency", "urgent", "immediately", "severe", "critical", "help",
   "now", "asap"]

/-- Lines 97-99 of aiService.js: threshold the sentiment score into a label. -/
def sentimentLabelOf (sentimentScore : ℚ) : String :=
  if sentimentScore > 1/5 then "positive"
  else if sentimentScore < -(1/5) then "negative"
  else "neutral"

/-- Line 106 of aiService.js: some token is an urgency keyword. -/
def hasUrgentTermsIn (tokens : List String) : Bool :=
  tokens.any fun token => urgentTerms.contains token

/-- Line 109 of aiService.js: urgent when very negative or an urgency
keyword occurs. -/
def isUrgentOf (sentimentLabel : String) (sentimentScore : ℚ)
    (tokens : List String) : Bool :=
  (sentimentLabel == "negative" && decide (sentimentScore < -(1/2 : ℚ))) ||
    hasUrgentTermsIn tokens

/-- Lines 81-149 of aiService.js.  The library collaborators are
parameters: `tokenize` (the `natural` word tokenizer), `stem` (the Porter
stemmer), `classify` (the trained Bayes classifier), `getSentiment` (the
AFINN sentiment analyzer, its float score modelled as a rational). -/
def analyzeMessage (tokenize : String → List String) (stem : String → String)
    (classify : String → String) (getSentiment : List String → ℚ)
    (message : String) : Analysis :=
  let tokens := tokenize message.toLower
  { intent := classify message
    entities := extractEntities tokens
    tokens := tokens
    stemmedTokens := tokens.map stem
    sentiment :=
      { score := getSentiment tokens
        label := sentimentLabelOf (getSentiment tokens)
        isUrgent := isUrgentOf (sentimentLabelOf (getSentiment tokens))
            (getSentiment tokens) tokens } }

/-! ## JavaScript `Map` as an association list

`conversationContexts` and `feedbackStore` are `Map` objects keyed by
strings; `mapSet` is `Map.set` (replace an existing key's value in place,
else append) and `mapGet` is `Map.get`. -/

/-- `Map.get`: the value stored under the first matching key, if any. -/
def mapGet {β : Type} : List (String × β) → String → Option β
  | [], _ => none
  | p :: rest, k => if p.1 = k then some p.2 else mapGet rest k

/-- `Map.set`: replace the value under an existing key, else append. -/
def mapSet {β : Type} : List (String × β) → String → β → List (String × β)
  | [], k, v => [(k, v)]
  | p :: rest, k, v =>
      if p.1 = k then (k, v) :: rest else p :: mapSet rest k v

/-! ## Conversation context store (aiService.js lines 67, 160-176, 374-383) -/

/-- A user's conversation memory: the object `{ history: [...],
lastInteraction: ... }`.  `lastInteraction` is a millisecond timestamp; a
freshly created context carries the placeholder 0 until `update` sets it
(the source leaves the field undefined for the instants before the same
call assigns it; the placeholder is never observable). -/
structure UserContext (α : Type) where
  history : List α
  lastInteraction : Int
deriving Repr, DecidableEq

/-- The `conversationContexts` map, generic in the entry type (the source
stores untyped context objects). -/
abbrev ContextStore (α : Type) := List (String × UserContext α)

/-- Lines 160-176 of aiService.js (`updateConversationContext`): create
the history on first use, push the entry, shift the oldest out when the
length exceeds 10, refresh the last-interaction time (`now` is the value
of `Date.now()` during the call). -/
def updateConversationContext {α : Type} (now : Int) (userId : String)
    (context : α) (contexts : ContextStore α) : ContextStore α :=
  let userContext : UserContext α :=
    match mapGet contexts userId with
    | none => { history := [], lastInteraction := 0 }
    | some c => c
  let history := userContext.history ++ [context]
  let trimmed := if 10 < history.length then history.tail else history
  mapSet contexts userId { history := trimmed, lastInteraction := now }

/-- Lines 374-383 of aiService.js: the periodic sweep deletes every
user's context whose last interaction is more than 30 minutes before
`now`. -/
def sweepContexts {α : Type} (now : Int) (contexts : ContextStore α) :
    ContextStore α :=
  let expirationTime : Int := 30 * 60 * 1000
  contexts.filter fun p => !decide (expirationTime < now - p.2.lastInteraction)

/-- A sequence of `updateConversationContext` calls applied to the empty
store: each operation is (Date.now() at the call, userId, entry). -/
def applyUpdates {α : Type} (ops : List (Int × String × α)) : ContextStore α :=
  ops.foldl (fun s op => updateConversationContext op.1 op.2.1 op.2.2 s) []

/-- The history stored for a user, empty when the user is absent. -/
def historyOf {α : Type} (s : ContextStore α) (u : String) : List α :=
  match mapGet s u with
  | none => []
  | some c => c.history

/-- The number of history entries stored for a user. -/
def contextHistoryLength {α : Type} (s : ContextStore α) (u : String) : Nat :=
  (historyOf s u).length

/-- A context entry as pushed by `generateAIResponse` (aiService.js lines
210-215): the message, the preferred language and `Date.now()`; the
nested analysis object plays no role in the store's mechanics and is
omitted. -/
structure CtxEntry where
  message : String
  language : String
  timestamp : Int
deriving Repr, DecidableEq

/-! ## Remote enhancement (gptService.js lines 175-212) -/

/-- A chat-completion message `{ role, content }`. -/
structure ChatMessage where
  role : String
  content : String
deriving Repr, DecidableEq

/-- An entry of the conversation history passed by the routes:
`{ content, isAI }`. -/
structure HistoryItem where
  isAI : Bool
  content : String
deriving Repr, DecidableEq

/-- Lines 191-194 of gptService.js: format the conversation history for
the GPT context. -/
def formatHistory (conversationHistory : List HistoryItem) : List ChatMessage :=
  conversationHistory.map fun item =>
    { role := if item.isAI then "assistant" else "user"
      content := item.content }

/-- Lines 181-188 of gptService.js: the system message of the enhancement
request (a template literal interpolating the category and the basic
response). -/
def enhanceSystemMessage (basicResponse category : String) : ChatMessage :=
  { role := "system"
    content := "You are a helpful healthcare assistant for TicketHub. \n      The user's query has been classified as: "
      ++ category
      ++ ". \n      Our basic AI system generated this response: \""
      ++ basicResponse
      ++ "\"\n      Please enhance this response to make it more natural, helpful, and contextually relevant to the user's query. \n      Maintain the same general information and advice, but make it more conversational and empathetic." }

/-- Lines 175-212 of gptService.js (`enhanceResponseWithGpt`).
`gptAvailable` is `isGptAvailable()` (whether the OpenAI client was
initialized at startup); `chatCompletion` is the remote call
`openai.chat.completions.create` followed by
`completion.choices[0].message.content.trim()`, with `none` standing for
a thrown error (network, auth, quota).  When the client is unavailable,
and when the call throws, the basic response is returned unchanged. -/
def enhanceResponseWithGpt (gptAvailable : Bool)
    (chatCompletion : List ChatMessage → Option String)
    (basicResponse message category : String)
    (conversationHistory : List HistoryItem) : String :=
  if !gptAvailable then basicResponse
  else
    match chatCompletion (enhanceSystemMessage basicResponse category ::
        (formatHistory conversationHistory ++
          [({ role := "user", content := message } : ChatMessage)])) with
    | some enhanced => enhanced
    | none => basicResponse

/-! ## Response templates and selection (aiService.js lines 186-319) -/

/-- The interpolation `analysis.tokens.slice(0, 3).join(' ')`. -/
def firstTokensText (A : Analysis) : String :=
  String.intercalate " " (A.tokens.take 3)

/-- `responses.general` (lines 233-236). -/
def generalResponses (A : Analysis) : List String :=
  ["Thank you for your general healthcare inquiry. I understand you're asking about "
     ++ firstTokensText A
     ++ "... A healthcare provider will review your case soon.",
   "I've noted your question about general healthcare matters. While I can provide basic information, a human healthcare provider will follow up with more specific guidance about "
     ++ firstTokensText A ++ "..."]

/-- `responses.appointment` (lines 237-240). -/
def appointmentResponses (A : Analysis) : List String :=
  ["I see you have a question about appointments"
     ++ (if 0 < A.entities.dates.length then
           " on " ++ String.intercalate ", " A.entities.dates
         else "")
     ++ ". I can help with basic scheduling information, but a staff member will need to confirm any changes to your appointments.",
   "Thank you for your appointment-related query. I've logged this in our system, and a healthcare provider will assist you with scheduling"
     ++ (if 0 < A.entities.dates.length then
           " for " ++ String.intercalate ", " A.entities.dates
         else "")
     ++ "."]

/-- `responses.prescription` (lines 241-244). -/
def prescriptionResponses (A : Analysis) : List String :=
  ["I understand you have a question about your "
     ++ (if 0 < A.entities.medications.length then
           String.intercalate ", " A.entities.medications
         else "prescription")
     ++ ". For patient safety, a healthcare provider will need to review your medication request.",
   "Thank you for your prescription inquiry. While I cannot provide medical advice, I've prioritized your request about "
     ++ (if 0 < A.entities.medications.length then
           String.intercalate ", " A.entities.medications
         else "your medication")
     ++ " for review by a qualified healthcare provider."]

/-- `responses.billing` (lines 245-248). -/
def billingResponses (A : Analysis) : List String :=
  ["I see your question is about billing. I've recorded your concern, and a billing specialist will review your account and respond shortly.",
   "Thank you for your billing inquiry. Your financial questions are important to us, and a team member will address your concerns about "
     ++ firstTokensText A ++ "... soon."]

/-- `responses.technical` (lines 249-252). -/
def technicalResponses (A : Analysis) : List String :=
  ["I understand you're experiencing technical difficulties with "
     ++ firstTokensText A
     ++ "... I've logged this issue, and our technical support team will help resolve it.",
   "Thank you for reporting this technical issue. Our IT team will review your case about "
     ++ firstTokensText A ++ "... and provide assistance shortly."]

/-- `responses.symptoms` (lines 253-256). -/
def symptomsResponses (A : Analysis) : List String :=
  ["I notice you mentioned "
     ++ String.intercalate ", " A.entities.symptoms
     ++ ". While I can't provide medical advice, a healthcare professional will review your symptoms and respond soon.",
   "Thank you for sharing information about your "
     ++ String.intercalate ", " A.entities.symptoms
     ++ ". A qualified healthcare provider will assess this information and follow up with you shortly."]

/-- `responses.preventive` (lines 257-260). -/
def preventiveResponses (A : Analysis) : List String :=
  ["Thank you for your interest in preventive care. I've noted your question about "
     ++ firstTokensText A
     ++ "... A healthcare provider will provide you with detailed preventive care information soon.",
   "I appreciate your focus on preventive healthcare. Your question about "
     ++ firstTokensText A
     ++ "... has been logged, and a healthcare professional will follow up with personalized guidance."]

/-- `responses.emergency` (lines 261-264). -/
def emergencyResponses (_A : Analysis) : List String :=
  ["I understand you're asking about emergency care. If this is a medical emergency, please call 911 immediately. A healthcare provider will review your message as soon as possible.",
   "For emergency situations, please call 911 or go to your nearest emergency room. I've flagged your message for urgent review by our healthcare team."]

/-- `responses.mental_health` (lines 265-268). -/
def mentalHealthResponses (_A : Analysis) : List String :=
  ["Thank you for reaching out about mental health services. Your wellbeing is important to us, and a mental health professional will respond to your inquiry soon.",
   "I appreciate you sharing your mental health concerns. A qualified mental health provider will review your message and follow up with support options shortly."]

/-- `responses.other` (lines 269-272). -/
def otherResponses (A : Analysis) : List String :=
  ["Thank you for your message. I've analyzed your request about "
     ++ firstTokensText A
     ++ "... and a healthcare team member will respond to your specific needs soon.",
   "I've received your inquiry. While I can help with basic information, a healthcare provider will follow up with personalized assistance regarding "
     ++ firstTokensText A ++ "..."]

/-- `responses.medicalConditions`, added at lines 288-293 when the
analysis extracted a medical condition. -/
def medicalConditionsResponses (A : Analysis) : List String :=
  ["I see you've mentioned "
     ++ String.intercalate ", " A.entities.medicalConditions
     ++ ". A healthcare provider with expertise in this area will review your message and respond soon.",
   "Thank you for providing information about "
     ++ String.intercalate ", " A.entities.medicalConditions
     ++ ". This helps us direct your inquiry to the appropriate healthcare specialist."]

/-- The `responses` object (lines 232-273) with the conditional
`medicalConditions` bucket of lines 288-293, as an association list in
the source's property order. -/
def responsesMap (A : Analysis) : List (String × List String) :=
  [("general", generalResponses A),
   ("appointment", appointmentResponses A),
   ("prescription", prescriptionResponses A),
   ("billing", billingResponses A),
   ("technical", technicalResponses A),
   ("symptoms", symptomsResponses A),
   ("preventive", preventiveResponses A),
   ("emergency", emergencyResponses A),
   ("mental_health", mentalHealthResponses A),
   ("other", otherResponses A)]
    ++ (if 0 < A.entities.medicalConditions.length then
          [("medicalConditions", medicalConditionsResponses A)]
        else [])

/-- `responses[key]`: property lookup on the responses object. -/
def lookupBucket (responses : List (String × List String)) (key : String) :
    Option (List String) :=
  (responses.find? fun p => p.1 == key).map fun p => p.2

/-- Lines 295-305 of aiService.js: pick the template bucket by priority
(`responses.emergency || responses.other` and `responses[responseCategory]
|| responses.other` are modelled by `Option.getD`; a direct property
access such as `responses.symptoms` by `getD []`, the property being
always present). -/
def selectBucket (A : Analysis) (responseCategory : String) : List String :=
  let responses := responsesMap A
  if responseCategory = "emergency" ∨ A.sentiment.isUrgent = true then
    (lookupBucket responses "emergency").getD
      ((lookupBucket responses "other").getD [])
  else if 0 < A.entities.symptoms.length then
    (lookupBucket responses "symptoms").getD []
  else if 0 < A.entities.medicalConditions.length then
    (lookupBucket responses "medicalConditions").getD []
  else
    (lookupBucket responses responseCategory).getD
      ((lookupBucket responses "other").getD [])

/-- Lines 278-282 of aiService.js: the three fixed empathy phrases. -/
def empathyPhrases : List String :=
  ["I understand this may be frustrating. ",
   "I'm sorry to hear you're having difficulties. ",
   "I appreciate your patience with this matter. "]

/-- Lines 226-229 and 276-285 of aiService.js: the prefix prepended to
the selected template.  `empathyRand` is the value of
`Math.floor(Math.random() * empathyPhrases.length)`. -/
def urgentPrefixFor (A : Analysis) (empathyRand : Nat) : String :=
  let p :=
    if A.sentiment.isUrgent = true then
      "I notice this seems urgent. I've flagged your message for priority review by our healthcare team. "
    else ""
  if A.sentiment.label = "negative" ∧ A.sentiment.isUrgent = false then
    empathyPhrases.getD empathyRand ""
  else p

/-- Lines 186-319 of aiService.js (`generateAIResponse`), the response
text computation.  External collaborators are parameters: the analysis
pipeline's tools, `detectLanguage` and `localizeResponse` (the language
service), and the two random draws (`empathyRand` for the empathy phrase,
`randomIndex` for `Math.floor(Math.random() * categoryResponses.length)`).
The conversation-context update performed for a given `userId` is
`updateConversationContext`, modelled separately; the artificial 500 ms
delay has no effect on the returned text. -/
def generateAIResponse (tokenize : String → List String)
    (stem classify : String → String) (getSentiment : List String → ℚ)
    (detectLanguage : String → String)
    (localizeResponse : String → String → String)
    (empathyRand randomIndex : Nat)
    (message category : String) (preferredLanguage : Option String) : String :=
  let detectedLanguage := detectLanguage message
  let userLanguage := preferredLanguage.getD detectedLanguage
  let analysis := analyzeMessage tokenize stem classify getSentiment message
  let responseCategory :=
    if analysis.intent = "" then category else analysis.intent
  let urgentPrefix := urgentPrefixFor analysis empathyRand
  let categoryResponses := selectBucket analysis responseCategory
  let response := urgentPrefix ++ categoryResponses.getD randomIndex ""
  if userLanguage = "en" then response
  else localizeResponse response userLanguage

/-! ## Feedback store (aiService.js lines 322-371) -/

/-- A record of the `feedbackStore` map (lines 335-341). -/
structure FeedbackRecord where
  userId : String
  messageId : String
  helpful : Bool
  feedbackText : String
  timestamp : Int
deriving Repr, DecidableEq

/-- The `feedbackStore` map, keyed by `` `${userId}:${messageId}` ``. -/
abbrev FeedbackStore := List (String × FeedbackRecord)

/-- Lines 332-350 of aiService.js (`recordFeedback`): store the record
under the combined key and return `true` (the body cannot throw, so the
`catch` branch returning `false` is unreachable). -/
def recordFeedback (now : Int) (userId messageId : String) (helpful : Bool)
    (feedbackText : String) (feedbackStore : FeedbackStore) :
    Bool × FeedbackStore :=
  let feedbackKey := userId ++ ":" ++ messageId
  (true,
   mapSet feedbackStore feedbackKey
     { userId := userId, messageId := messageId, helpful := helpful
       feedbackText := feedbackText, timestamp := now })

/-- The summary object returned by `analyzeFeedback`. -/
structure FeedbackAnalysis where
  feedbackCount : Nat
  helpfulCount : Nat
  helpfulPercentage : ℚ
deriving Repr, DecidableEq

/-- Lines 356-371 of aiService.js (`analyzeFeedback`): count, helpful
count and helpful percentage over the whole in-memory store. -/
def analyzeFeedback (feedbackStore : FeedbackStore) : FeedbackAnalysis :=
  let feedbackCount := feedbackStore.length
  let helpfulCount :=
    ((feedbackStore.map fun p => p.2).filter fun f => f.helpful).length
  let helpfulPercentage : ℚ :=
    if 0 < feedbackCount then
      ((helpfulCount : ℚ) / (feedbackCount : ℚ)) * 100
    else 0
  { feedbackCount := feedbackCount, helpfulCount := helpfulCount
    helpfulPercentage := helpfulPercentage }

/-! ## Ticket status (models/Ticket.js lines 24-28; tickets route) -/

/-- The `enum` of `TicketSchema.status`: the only values the schema
allows a saved ticket to carry. -/
def ticketStatusValues : List String :=
  ["open", "in_progress", "resolved", "closed"]

/-- The status written by the add-message route (`router.post('/:id/message')`,
lines 239-242 of the tickets router): a closed ticket is set to
"reopened" before saving. -/
def addMessageStatusUpdate (status : String) : String :=
  if status = "closed" then "reopened" else status

/-! ## The word tokenizer (external library)

Modelled from the spec: the tokenizer is an external library capability,
"not implemented here", that "splits text into lowercase word tokens" —
the `natural` `WordTokenizer` splits the input on runs of characters
outside the word class (letters, digits, underscore) and discards those
separators, `'/'` and `'-'` among them. -/

/-- Accumulate the current token (in reverse) while scanning. -/
def tokenizeAux : List Char → List Char → List (List Char)
  | acc, [] => if acc = [] then [] else [acc.reverse]
  | acc, c :: rest =>
      if wordChar c then tokenizeAux (c :: acc) rest
      else if acc = [] then tokenizeAux [] rest
      else acc.reverse :: tokenizeAux [] rest

/-- Modelled from the spec: the external word tokenizer — split on runs
of non-word characters, keeping the maximal word-character runs as
tokens. -/
def wordTokenize (s : String) : List String :=
  (tokenizeAux [] s.data).map fun cs => String.mk cs

/-- A reachable context store: "alice" updated at t = 0 ms and again at
t = 1,500,000 ms (25 minutes). -/
def sweepDemoStore : ContextStore CtxEntry :=
  updateConversationContext 1500000 "alice"
    { message := "any update on my headache", language := "en", timestamp := 1500000 }
    (updateConversationContext 0 "alice"
      { message := "I have had a headache for weeks", language := "en", timestamp := 0 }
      [])

/-! ## Association-list lemmas -/

theorem mapGet_mapSet_self {β : Type} (s : List (String × β)) (k : String) (v : β) :
    mapGet (mapSet s k v) k = some v := by
  induction s with
  | nil => simp [mapSet, mapGet]
  | cons p rest ih =>
      by_cases h : p.1 = k
      · simp [mapSet, mapGet, h]
      · simp [mapSet, mapGet, h, ih]

theorem mapGet_mapSet_ne {β : Type} (s : List (String × β)) (k k' : String)
    (v : β) (h : k' ≠ k) : mapGet (mapSet s k v) k' = mapGet s k' := by
  have hkk' : ¬ k = k' := fun e => h e.symm
  induction s with
  | nil =>
      simp only [mapSet, mapGet]
      rw [if_neg hkk']
  | cons p rest ih =>
      simp only [mapSet]
      by_cases hp : p.1 = k
      · have hpk' : ¬ p.1 = k' := fun e => h (hp.symm.trans e).symm
        rw [if_pos hp]
        simp only [mapGet]
        rw [if_neg hkk', if_neg hpk']
      · rw [if_neg hp]
        simp only [mapGet]
        by_cases hp' : p.1 = k'
        · rw [if_pos hp', if_pos hp']
        · rw [if_neg hp', if_neg hp', ih]

theorem mapSet_mapSet_length {β : Type} (s : List (String × β)) (k : String)
    (v1 v2 : β) : (mapSet (mapSet s k v1) k v2).length = (mapSet s k v1).length := by
  induction s with
  | nil => simp [mapSet]
  | cons p rest ih =>
      by_cases h : p.1 = k
      · simp [mapSet, h]
      · simp [mapSet, h, ih]

/-! ## Context-store lemmas -/

theorem updateConversationContext_get_self {α : Type} (now : Int)
    (userId : String) (entry : α) (s : ContextStore α) :
    mapGet (updateConversationContext now userId entry s) userId =
      some { history :=
               if 10 < (historyOf s userId ++ [entry]).length then
                 (historyOf s userId ++ [entry]).tail
               else historyOf s userId ++ [entry]
             lastInteraction := now } := by
  unfold updateConversationContext historyOf
  cases h : mapGet s userId <;> simp [h, mapGet_mapSet_self]

theorem updateConversationContext_bounded {α : Type} (s : ContextStore α)
    (h : ∀ u, contextHistoryLength s u ≤ 10) (now : Int) (userId : String)
    (entry : α) :
    ∀ u, contextHistoryLength (updateConversationContext now userId entry s) u ≤ 10 := by
  intro u
  by_cases hu : u = userId
  · subst hu
    have hget := updateConversationContext_get_self now u entry s
    have hlen := h u
    unfold contextHistoryLength at hlen ⊢
    unfold historyOf
    rw [hget]
    by_cases hc : 10 < (historyOf s u ++ [entry]).length
    · simp only [hc, if_true]
      have : (historyOf s u ++ [entry]).tail.length =
          (historyOf s u ++ [entry]).length - 1 := List.length_tail _
      simp only [this, List.length_append, List.length_singleton]
      omega
    · simp only [hc, if_false]
      simp only [List.length_append, List.length_singleton] at hc ⊢
      omega
  · unfold contextHistoryLength historyOf updateConversationContext
    rw [mapGet_mapSet_ne _ _ _ _ hu]
    exact h u

theorem applyUpdates_bounded_from {α : Type} :
    ∀ (ops : List (Int × String × α)) (s : ContextStore α),
      (∀ u, contextHistoryLength s u ≤ 10) →
      ∀ u, contextHistoryLength
          (ops.foldl (fun st op => updateConversationContext op.1 op.2.1 op.2.2 st) s) u ≤ 10 := by
  intro ops
  induction ops with
  | nil => intro s h u; exact h u
  | cons op rest ih =>
      intro s h u
      exact ih _ (updateConversationContext_bounded s h op.1 op.2.1 op.2.2) u

/-- C7: the conversation context store never retains more than 10 history
entries per user — for every state reachable by a sequence of
`updateConversationContext` calls from the empty store, each user's
history has length at most 10; and a single update appends the new entry
to the (created-on-first-use) history, trims it to the most recent 10,
and sets the last-interaction time to the call's `Date.now()` value. -/
theorem conversationContext_bounded :
    ∀ (α : Type) (ops : List (Int × String × α)) (u : String),
      contextHistoryLength (applyUpdates ops) u ≤ 10 ∧
      ∀ (now : Int) (userId : String) (entry : α) (s : ContextStore α),
        mapGet (updateConversationContext now userId entry s) userId =
          some { history :=
                   if 10 < (historyOf s userId ++ [entry]).length then
                     (historyOf s userId ++ [entry]).tail
                   else historyOf s userId ++ [entry]
                 lastInteraction := now } := by
  intro α ops u
  constructor
  · exact applyUpdates_bounded_from ops []
      (fun u' => by simp [contextHistoryLength, historyOf, mapGet]) u
  · intro now userId entry s
    exact updateConversationContext_get_self now userId entry s

/-- C5 counterexample: with "alice" first updated at t = 0 and again at
t = 1,500,000 ms (25 min), the sweep at t = 1,860,000 ms (31 min) retains
her whole context — including the history entry with timestamp 0, which
is 31 minutes (more than 30 minutes) older than the sweep time. -/
theorem sweep_retains_old_entry :
    mapGet (sweepContexts 1860000 sweepDemoStore) "alice" =
      some { history :=
               [{ message := "I have had a headache for weeks", language := "en", timestamp := 0 },
                { message := "any update on my headache", language := "en", timestamp := 1500000 }]
             lastInteraction := 1500000 } ∧
    (30 * 60 * 1000 : Int) < 1860000 - 0 := by
  exact ⟨rfl, by decide⟩

/-- C5 (amended): after a sweep at time `now`, every retained user
context has a last-interaction time within 30 minutes of `now`; the sweep
evicts whole per-user contexts by last interaction, so individual history
entries older than 30 minutes can survive. -/
theorem sweepContexts_lastInteraction_recent {α : Type} (now : Int)
    (s : ContextStore α) (p : String × UserContext α)
    (hp : p ∈ sweepContexts now s) :
    now - p.2.lastInteraction ≤ 30 * 60 * 1000 := by
  unfold sweepContexts at hp
  have h2 := (List.mem_filter.mp hp).2
  simp only [Bool.not_eq_true', decide_eq_false_iff_not, not_lt] at h2
  exact h2

/-- C5 (amended) witness: the amended theorem applied to the singleton
store of one never-expired user, swept at time 0. -/
theorem sweepContexts_lastInteraction_recent_witness :
    (0 : Int) - (({ history := [], lastInteraction := 0 } : UserContext Nat)).lastInteraction ≤
      30 * 60 * 1000 :=
  sweepContexts_lastInteraction_recent 0
    [("bob", { history := [], lastInteraction := 0 })]
    ("bob", { history := [], lastInteraction := 0 }) (by decide)

/-- C1: for every templated response, message, category and history, the
enhance operation returns the original templated text unchanged whenever
the remote collaborator is unavailable or the remote call errors; and in
every case it returns either the templated text or the remote text —
never no response. -/
theorem enhanceResponseWithGpt_fallback :
    ∀ (gptAvailable : Bool) (chatCompletion : List ChatMessage → Option String)
      (basicResponse message category : String)
      (conversationHistory : List HistoryItem),
      (gptAvailable = false ∨
          chatCompletion (enhanceSystemMessage basicResponse category ::
            (formatHistory conversationHistory ++
              [({ role := "user", content := message } : ChatMessage)])) = none) →
        enhanceResponseWithGpt gptAvailable chatCompletion basicResponse
          message category conversationHistory = basicResponse := by
  intro gptAvailable chatCompletion basicResponse message category conversationHistory h
  rcases h with h | h
  · subst h; rfl
  · unfold enhanceResponseWithGpt
    cases gptAvailable <;> simp [h]

/-- C1 witness: the fallback theorem at a concrete input, once with the
collaborator unavailable and once with the remote call erroring. -/
theorem enhanceResponseWithGpt_fallback_witness :
    enhanceResponseWithGpt false (fun _ => some "rewritten")
        "A provider will follow up." "hello" "general" [] =
      "A provider will follow up." ∧
    enhanceResponseWithGpt true (fun _ => none)
        "A provider will follow up." "hello" "general" [] =
      "A provider will follow up." :=
  ⟨enhanceResponseWithGpt_fallback false (fun _ => some "rewritten")
      "A provider will follow up." "hello" "general" [] (Or.inl rfl),
   enhanceResponseWithGpt_fallback true (fun _ => none)
      "A provider will follow up." "hello" "general" [] (Or.inr rfl)⟩

/-! ## Projection lemmas for `analyzeMessage` -/

theorem analyzeMessage_tokens_def (tokenize : String → List String)
    (stem classify : String → String) (getSentiment : List String → ℚ)
    (message : String) :
    (analyzeMessage tokenize stem classify getSentiment message).tokens =
      tokenize message.toLower := rfl

theorem analyzeMessage_entities_def (tokenize : String → List String)
    (stem classify : String → String) (getSentiment : List String → ℚ)
    (message : String) :
    (analyzeMessage tokenize stem classify getSentiment message).entities =
      extractEntities (tokenize message.toLower) := rfl

theorem analyzeMessage_score_def (tokenize : String → List String)
    (stem classify : String → String) (getSentiment : List String → ℚ)
    (message : String) :
    (analyzeMessage tokenize stem classify getSentiment message).sentiment.score =
      getSentiment (tokenize message.toLower) := rfl

theorem analyzeMessage_label_def (tokenize : String → List String)
    (stem classify : String → String) (getSentiment : List String → ℚ)
    (message : String) :
    (analyzeMessage tokenize stem classify getSentiment message).sentiment.label =
      sentimentLabelOf (getSentiment (tokenize message.toLower)) := rfl

theorem analyzeMessage_isUrgent_def (tokenize : String → List String)
    (stem classify : String → String) (getSentiment : List String → ℚ)
    (message : String) :
    (analyzeMessage tokenize stem classify getSentiment message).sentiment.isUrgent =
      isUrgentOf (sentimentLabelOf (getSentiment (tokenize message.toLower)))
        (getSentiment (tokenize message.toLower)) (tokenize message.toLower) := rfl

/-- The label thresholds of `sentimentLabelOf`, each direction. -/
theorem sentimentLabelOf_spec (q : ℚ) :
    (sentimentLabelOf q = "positive" ↔ q > 1/5) ∧
    (sentimentLabelOf q = "negative" ↔ q < -(1/5)) ∧
    (sentimentLabelOf q = "neutral" ↔ (¬ q > 1/5 ∧ ¬ q < -(1/5))) := by
  unfold sentimentLabelOf
  by_cases h1 : q > 1/5
  · rw [if_pos h1]
    have hn : ¬ q < -(1/5) := by linarith
    exact ⟨⟨fun _ => h1, fun _ => rfl⟩,
      ⟨fun h => absurd h (by decide), fun h => absurd h hn⟩,
      ⟨fun h => absurd h (by decide), fun h => absurd h1 h.1⟩⟩
  · rw [if_neg h1]
    by_cases h2 : q < -(1/5)
    · rw [if_pos h2]
      exact ⟨⟨fun h => absurd h (by decide), fun h => absurd h h1⟩,
        ⟨fun _ => h2, fun _ => rfl⟩,
        ⟨fun h => absurd h (by decide), fun h => absurd h2 h.2⟩⟩
    · rw [if_neg h2]
      exact ⟨⟨fun h => absurd h (by decide), fun h => absurd h h1⟩,
        ⟨fun h => absurd h (by decide), fun h => absurd h h2⟩,
        ⟨fun _ => ⟨h1, h2⟩, fun _ => rfl⟩⟩

/-- C2: for every message whose token list contains an urgency keyword,
the analysis has `sentiment.isUrgent = true` regardless of the sentiment
score; and `isUrgent` is also true whenever the sentiment label is
negative and the score is below -0.5. -/
theorem analyzeMessage_urgency :
    ∀ (tokenize : String → List String) (stem classify : String → String)
      (getSentiment : List String → ℚ) (message : String),
      (((analyzeMessage tokenize stem classify getSentiment message).tokens.any
            fun t => urgentTerms.contains t) = true →
          (analyzeMessage tokenize stem classify getSentiment message).sentiment.isUrgent
            = true) ∧
      ((analyzeMessage tokenize stem classify getSentiment message).sentiment.label
            = "negative" →
        (analyzeMessage tokenize stem classify getSentiment message).sentiment.score
            < -(1/2) →
          (analyzeMessage tokenize stem classify getSentiment message).sentiment.isUrgent
            = true) := by
  intro tokenize stem classify getSentiment message
  constructor
  · intro h
    rw [analyzeMessage_tokens_def] at h
    rw [analyzeMessage_isUrgent_def]
    unfold isUrgentOf hasUrgentTermsIn
    rw [h]
    simp
  · intro hlabel hscore
    rw [analyzeMessage_label_def] at hlabel
    rw [analyzeMessage_score_def] at hscore
    rw [analyzeMessage_isUrgent_def]
    unfold isUrgentOf
    rw [hlabel, decide_eq_true hscore]
    simp

/-- C4 (the code's actual behavior at the failing input): adding a message
to a closed ticket writes the status "reopened", which is outside the
schema's fixed enum open / in_progress / resolved / closed. -/
theorem addMessage_status_outside_enum :
    addMessageStatusUpdate "closed" = "reopened" ∧
      ("reopened" ∈ ticketStatusValues → False) := by
  constructor
  · rfl
  · decide

/-- C8: the sentiment label is "positive" exactly when the score exceeds
0.2, "negative" exactly when it is below -0.2, "neutral" otherwise; in
particular every score in the open interval (-0.2, 0.2) is labelled
"neutral". -/
theorem analyzeMessage_sentiment_label :
    ∀ (tokenize : String → List String) (stem classify : String → String)
      (getSentiment : List String → ℚ) (message : String),
      ((analyzeMessage tokenize stem classify getSentiment message).sentiment.label
          = "positive" ↔
        (analyzeMessage tokenize stem classify getSentiment message).sentiment.score
          > 1/5) ∧
      ((analyzeMessage tokenize stem classify getSentiment message).sentiment.label
          = "negative" ↔
        (analyzeMessage tokenize stem classify getSentiment message).sentiment.score
          < -(1/5)) ∧
      ((analyzeMessage tokenize stem classify getSentiment message).sentiment.label
          = "neutral" ↔
        (¬ (analyzeMessage tokenize stem classify getSentiment message).sentiment.score
            > 1/5 ∧
         ¬ (analyzeMessage tokenize stem classify getSentiment message).sentiment.score
            < -(1/5))) ∧
      (-(1/5) < (analyzeMessage tokenize stem classify getSentiment message).sentiment.score →
       (analyzeMessage tokenize stem classify getSentiment message).sentiment.score < 1/5 →
        (analyzeMessage tokenize stem classify getSentiment message).sentiment.label
          = "neutral") := by
  intro tokenize stem classify getSentiment message
  rw [analyzeMessage_label_def, analyzeMessage_score_def]
  have hs := sentimentLabelOf_spec (getSentiment (tokenize message.toLower))
  refine ⟨hs.1, hs.2.1, hs.2.2, ?_⟩
  intro ha hb
  exact hs.2.2.mpr ⟨by linarith, by linarith⟩

/-- C9: recording feedback returns true and overwrites any prior record
for the same (userId, messageId) pair (same key, latest record, no growth
of the store); and the end-to-end scenario — helpful=false for one
user/message pair, helpful=true for a different pair — summarizes to
count 2, helpful count 1, helpful percentage 50. -/
theorem recordFeedback_overwrite_and_summary :
    ∀ (now1 now2 : Int) (u m t1 t2 : String) (h1 h2 : Bool) (s : FeedbackStore),
      (recordFeedback now1 u m h1 t1 s).1 = true ∧
      mapGet (recordFeedback now2 u m h2 t2 (recordFeedback now1 u m h1 t1 s).2).2
          (u ++ ":" ++ m) =
        some { userId := u, messageId := m, helpful := h2
               feedbackText := t2, timestamp := now2 } ∧
      (recordFeedback now2 u m h2 t2 (recordFeedback now1 u m h1 t1 s).2).2.length =
        (recordFeedback now1 u m h1 t1 s).2.length ∧
      analyzeFeedback
          (recordFeedback 1 "user2" "msg2" true ""
            (recordFeedback 0 "user1" "msg1" false "" []).2).2 =
        { feedbackCount := 2, helpfulCount := 1, helpfulPercentage := 50 } := by
  intro now1 now2 u m t1 t2 h1 h2 s
  refine ⟨rfl, ?_, ?_, ?_⟩
  · unfold recordFeedback
    exact mapGet_mapSet_self _ _ _
  · unfold recordFeedback
    exact mapSet_mapSet_length _ _ _ _
  · show analyzeFeedback
        [("user1:msg1", { userId := "user1", messageId := "msg1", helpful := false
                          feedbackText := "", timestamp := 0 }),
         ("user2:msg2", { userId := "user2", messageId := "msg2", helpful := true
                          feedbackText := "", timestamp := 1 })] = _
    unfold analyzeFeedback
    norm_num

/-! ## Response-selection lemmas -/

theorem lookupBucket_emergency (A : Analysis) :
    lookupBucket (responsesMap A) "emergency" = some (emergencyResponses A) := rfl

theorem lookupBucket_symptoms (A : Analysis) :
    lookupBucket (responsesMap A) "symptoms" = some (symptomsResponses A) := rfl

theorem lookupBucket_other (A : Analysis) :
    lookupBucket (responsesMap A) "other" = some (otherResponses A) := rfl

theorem lookupBucket_medicalConditions (A : Analysis)
    (h : 0 < A.entities.medicalConditions.length) :
    lookupBucket (responsesMap A) "medicalConditions" =
      some (medicalConditionsResponses A) := by
  unfold lookupBucket responsesMap
  rw [if_pos h]
  rfl

theorem mem_responsesMap_length (A : Analysis) :
    ∀ p ∈ responsesMap A, p.2.length = 2 := by
  intro p hp
  unfold responsesMap at hp
  rcases List.mem_append.mp hp with h | h
  · simp only [List.mem_cons, List.not_mem_nil, or_false] at h
    rcases h with h | h | h | h | h | h | h | h | h | h <;> subst h <;> rfl
  · by_cases hc : 0 < A.entities.medicalConditions.length
    · rw [if_pos hc] at h
      simp only [List.mem_cons, List.not_mem_nil, or_false] at h
      subst h
      rfl
    · rw [if_neg hc] at h
      exact absurd h (List.not_mem_nil p)

theorem lookupBucket_length (A : Analysis) (k : String) (b : List String)
    (h : lookupBucket (responsesMap A) k = some b) : b.length = 2 := by
  unfold lookupBucket at h
  obtain ⟨p, hfind, hb⟩ := Option.map_eq_some'.mp h
  have hp := List.mem_of_find?_eq_some hfind
  rw [← hb]
  exact mem_responsesMap_length A p hp

/-- The selection of lines 295-305 resolved to the named buckets, in the
fixed priority order. -/
theorem selectBucket_eq (A : Analysis) (rc : String) :
    selectBucket A rc =
      if rc = "emergency" ∨ A.sentiment.isUrgent = true then emergencyResponses A
      else if A.entities.symptoms ≠ [] then symptomsResponses A
      else if A.entities.medicalConditions ≠ [] then medicalConditionsResponses A
      else (lookupBucket (responsesMap A) rc).getD (otherResponses A) := by
  unfold selectBucket
  by_cases h1 : rc = "emergency" ∨ A.sentiment.isUrgent = true
  · rw [if_pos h1, if_pos h1, lookupBucket_emergency]
    rfl
  · rw [if_neg h1, if_neg h1]
    by_cases h2 : 0 < A.entities.symptoms.length
    · rw [if_pos h2, if_pos (List.length_pos.mp h2), lookupBucket_symptoms]
      rfl
    · have h2' : ¬ A.entities.symptoms ≠ [] :=
        fun hne => h2 (List.length_pos.mpr hne)
      rw [if_neg h2, if_neg h2']
      by_cases h3 : 0 < A.entities.medicalConditions.length
      · rw [if_pos h3, if_pos (List.length_pos.mp h3),
          lookupBucket_medicalConditions A h3]
        rfl
      · have h3' : ¬ A.entities.medicalConditions ≠ [] :=
          fun hne => h3 (List.length_pos.mpr hne)
        rw [if_neg h3, if_neg h3', lookupBucket_other]
        rfl

theorem selectBucket_length (A : Analysis) (rc : String) :
    (selectBucket A rc).length = 2 := by
  rw [selectBucket_eq]
  split_ifs with h1 h2 h3
  · rfl
  · rfl
  · rfl
  · cases hf : lookupBucket (responsesMap A) rc with
    | none => simp only [hf, Option.getD_none]; rfl
    | some b =>
        simp only [hf, Option.getD_some]
        exact lookupBucket_length A rc b hf

theorem getD_mem_of_length_two (l : List String) (h : l.length = 2) :
    l.getD 0 "" ∈ l ∧ l.getD 1 "" ∈ l := by
  rcases l with _ | ⟨a, _ | ⟨b, _ | ⟨c, t⟩⟩⟩
  · simp at h
  · simp at h
  · simp
  · simp at h

/-- C3: the response template bucket is selected by the fixed priority
order — emergency category or urgent flag, then extracted symptoms, then
extracted medical conditions, then the classified/given category, then
the default "other" bucket — every reachable bucket holds exactly 2 fixed
variants, the random index picks one of them, and `generateAIResponse`
(for an English user) is the urgency/empathy prefix followed by the
picked variant. -/
theorem generateAIResponse_priority :
    ∀ (A : Analysis) (rc : String),
      (selectBucket A rc =
        if rc = "emergency" ∨ A.sentiment.isUrgent = true then emergencyResponses A
        else if A.entities.symptoms ≠ [] then symptomsResponses A
        else if A.entities.medicalConditions ≠ [] then medicalConditionsResponses A
        else (lookupBucket (responsesMap A) rc).getD (otherResponses A)) ∧
      (selectBucket A rc).length = 2 ∧
      (selectBucket A rc).getD 0 "" ∈ selectBucket A rc ∧
      (selectBucket A rc).getD 1 "" ∈ selectBucket A rc ∧
      ∀ (tokenize : String → List String) (stem classify : String → String)
        (getSentiment : List String → ℚ) (detectLanguage : String → String)
        (localizeResponse : String → String → String)
        (empathyRand randomIndex : Nat) (message category : String),
        generateAIResponse tokenize stem classify getSentiment detectLanguage
            localizeResponse empathyRand randomIndex message category (some "en") =
          urgentPrefixFor (analyzeMessage tokenize stem classify getSentiment message)
              empathyRand ++
            (selectBucket (analyzeMessage tokenize stem classify getSentiment message)
                (if (analyzeMessage tokenize stem classify getSentiment message).intent
                      = "" then
                   category
                 else
                   (analyzeMessage tokenize stem classify getSentiment message).intent)).getD
              randomIndex "" := by
  intro A rc
  have hmem := getD_mem_of_length_two (selectBucket A rc) (selectBucket_length A rc)
  refine ⟨selectBucket_eq A rc, selectBucket_length A rc, hmem.1, hmem.2, ?_⟩
  intro tokenize stem classify getSentiment detectLanguage localizeResponse
    empathyRand randomIndex message category
  rfl

/-! ## Entity extraction: C6 -/

/-- C6: for every lowercase token sequence, the extraction returns, for
each of the five fixed entity kinds, exactly the subsequence of input
tokens matching that kind's regular expression (a sublist, with
membership characterized by the regex test); it is a total function, and
when no token matches any regex every entity list is empty. -/
theorem extractEntities_exact :
    ∀ tokens : List String,
      ((extractEntities tokens).dates.Sublist tokens ∧
       (extractEntities tokens).medications.Sublist tokens ∧
       (extractEntities tokens).symptoms.Sublist tokens ∧
       (extractEntities tokens).medicalConditions.Sublist tokens ∧
       (extractEntities tokens).bodyParts.Sublist tokens) ∧
      (∀ t : String,
        (t ∈ (extractEntities tokens).dates ↔
          t ∈ tokens ∧ matchesDate t = true) ∧
        (t ∈ (extractEntities tokens).medications ↔
          t ∈ tokens ∧ matchesMedication t = true) ∧
        (t ∈ (extractEntities tokens).symptoms ↔
          t ∈ tokens ∧ matchesSymptom t = true) ∧
        (t ∈ (extractEntities tokens).medicalConditions ↔
          t ∈ tokens ∧ matchesMedicalCondition t = true) ∧
        (t ∈ (extractEntities tokens).bodyParts ↔
          t ∈ tokens ∧ matchesBodyPart t = true)) ∧
      ((∀ t ∈ tokens, matchesDate t = false ∧ matchesMedication t = false ∧
          matchesSymptom t = false ∧ matchesMedicalCondition t = false ∧
          matchesBodyPart t = false) →
        extractEntities tokens =
          { dates := [], medications := [], symptoms := []
            medicalConditions := [], bodyParts := [] }) := by
  intro tokens
  refine ⟨⟨List.filter_sublist _, List.filter_sublist _, List.filter_sublist _,
      List.filter_sublist _, List.filter_sublist _⟩, ?_, ?_⟩
  · intro t
    exact ⟨List.mem_filter, List.mem_filter, List.mem_filter,
      List.mem_filter, List.mem_filter⟩
  · intro h
    unfold extractEntities
    simp only [Entities.mk.injEq]
    refine ⟨?_, ?_, ?_, ?_, ?_⟩ <;>
      · rw [List.filter_eq_nil_iff]
        intro a ha
        have := h a ha
        simp [this.1, this.2.1, this.2.2.1, this.2.2.2.1, this.2.2.2.2]

/-! ## The dates entity list is always empty: C10 -/

theorem digitsN_mem {n : Nat} {cs cs' : List Char}
    (h : digitsN n cs = some cs') : ∀ c ∈ cs', c ∈ cs := by
  induction n generalizing cs with
  | zero =>
      unfold digitsN at h
      cases h
      exact fun c hc => hc
  | succ n ih =>
      cases cs with
      | nil => cases h
      | cons c rest =>
          unfold digitsN at h
          by_cases hd : c.isDigit
          · rw [if_pos hd] at h
            exact fun c' hc' => List.mem_cons_of_mem c (ih h c' hc')
          · rw [if_neg hd] at h
            cases h

theorem dateFrom_has_sep {cs : List Char} (h : dateFrom cs = true) :
    ∃ c ∈ cs, isDateSep c = true := by
  unfold dateFrom at h
  obtain ⟨n1, _, hn1⟩ := List.any_eq_true.mp h
  cases hd : digitsN n1 cs with
  | none => rw [hd] at hn1; cases hn1
  | some cs1 =>
      cases cs1 with
      | nil => rw [hd] at hn1; cases hn1
      | cons c cs2 =>
          rw [hd, Bool.and_eq_true] at hn1
          exact ⟨c, digitsN_mem hd c (List.mem_cons_self c cs2), hn1.1⟩

theorem dateSearch_has_sep :
    ∀ (cs : List Char) (prevWord : Bool), dateSearch prevWord cs = true →
      ∃ c ∈ cs, isDateSep c = true := by
  intro cs
  induction cs with
  | nil => intro prevWord h; cases h
  | cons c rest ih =>
      intro prevWord h
      unfold dateSearch at h
      rw [Bool.or_eq_true] at h
      rcases h with h1 | h2
      · rw [Bool.and_eq_true] at h1
        exact dateFrom_has_sep h1.2
      · obtain ⟨c', hc', hsep⟩ := ih (wordChar c) h2
        exact ⟨c', List.mem_cons_of_mem c hc', hsep⟩

theorem isDateSep_not_wordChar {c : Char} (h : isDateSep c = true) :
    wordChar c = false := by
  unfold isDateSep at h
  rw [Bool.or_eq_true] at h
  rcases h with h1 | h1 <;>
    · rw [of_decide_eq_true h1]
      decide

theorem matchesDate_eq_false_of_wordChars {t : String}
    (h : ∀ c ∈ t.data, wordChar c = true) : matchesDate t = false := by
  cases hm : matchesDate t with
  | false => rfl
  | true =>
      obtain ⟨c, hc, hsep⟩ := dateSearch_has_sep t.data false hm
      have h1 := isDateSep_not_wordChar hsep
      rw [h c hc] at h1
      cases h1

theorem tokenizeAux_wordChars :
    ∀ (cs acc : List Char), (∀ c ∈ acc, wordChar c = true) →
      ∀ t ∈ tokenizeAux acc cs, ∀ c ∈ t, wordChar c = true := by
  intro cs
  induction cs with
  | nil =>
      intro acc hacc t ht
      unfold tokenizeAux at ht
      by_cases he : acc = []
      · rw [if_pos he] at ht
        cases ht
      · rw [if_neg he] at ht
        simp only [List.mem_singleton] at ht
        subst ht
        intro c hc
        exact hacc c (List.mem_reverse.mp hc)
  | cons c rest ih =>
      intro acc hacc t ht
      unfold tokenizeAux at ht
      by_cases hw : wordChar c
      · rw [if_pos hw] at ht
        refine ih (c :: acc) ?_ t ht
        intro c' hc'
        rcases List.mem_cons.mp hc' with h | h
        · rw [h]; exact hw
        · exact hacc c' h
      · rw [if_neg hw] at ht
        by_cases he : acc = []
        · rw [if_pos he] at ht
          exact ih [] (by intro c' hc'; cases hc') t ht
        · rw [if_neg he] at ht
          rcases List.mem_cons.mp ht with h | h
          · subst h
            intro c' hc'
            exact hacc c' (List.mem_reverse.mp hc')
          · exact ih [] (by intro c' hc'; cases hc') t h

theorem wordTokenize_tokens_wordChars {s : String} {t : String}
    (ht : t ∈ wordTokenize s) : ∀ c ∈ t.data, wordChar c = true := by
  unfold wordTokenize at ht
  obtain ⟨cs, hcs, hmk⟩ := List.mem_map.mp ht
  subst hmk
  exact tokenizeAux_wordChars s.data [] (by intro c hc; cases hc) cs hcs

/-- C10: under the word tokenizer (which splits on non-word characters
such as `'/'` and `'-'`), no token can match the date regular expression
(which needs a `/` or `-` separator inside the token), so the dates
entity list of every analysis is empty and the date-interpolating
branches of the appointment templates are never taken. -/
theorem analyzeMessage_dates_empty :
    ∀ (stem classify : String → String) (getSentiment : List String → ℚ)
      (message : String),
      (analyzeMessage wordTokenize stem classify getSentiment message).entities.dates
        = [] ∧
      appointmentResponses
          (analyzeMessage wordTokenize stem classify getSentiment message) =
        ["I see you have a question about appointments. I can help with basic scheduling information, but a staff member will need to confirm any changes to your appointments.",
         "Thank you for your appointment-related query. I've logged this in our system, and a healthcare provider will assist you with scheduling."] := by
  intro stem classify getSentiment message
  have hd : (analyzeMessage wordTokenize stem classify getSentiment message).entities.dates
      = [] := by
    rw [analyzeMessage_entities_def]
    unfold extractEntities
    simp only
    rw [List.filter_eq_nil_iff]
    intro t ht
    simp [matchesDate_eq_false_of_wordChars (wordTokenize_tokens_wordChars ht)]
  refine ⟨hd, ?_⟩
  unfold appointmentResponses
  rw [hd]
  rfl
